import Mathlib

/-!
Verification of the socrata2sql schema-derivation and streaming-ingestion
pipeline: a shallow embedding of `socrata2sql/parsers.py` and
`socrata2sql/cli.py`, followed by theorems about the embedded code.

Raw API values are modelled by `Value`; numbers carry the string Python's
str() would render for them, since the code only ever interpolates them
into SQL literals with %s.
-/

/-- A raw JSON-ish value as returned by the Socrata API.  `vnum` carries the
decimal rendering of the number (the code only uses numbers via %s). -/
inductive Value where
  | vnull
  | vbool (b : Bool)
  | vnum (s : String)
  | vstr (s : String)
  | varr (items : List Value)
  | vobj (fields : List (String × Value))

mutual

/-- Python repr() of a `Value` (dict/list rendering used by str()/%s). -/
def pyRepr : Value → String
  | .vnull => "None"
  | .vbool true => "True"
  | .vbool false => "False"
  | .vnum s => s
  | .vstr s => "\x27" ++ s ++ "\x27"
  | .varr l => "[" ++ pyReprList l ++ "]"
  | .vobj l => "\x7b" ++ pyReprObj l ++ "\x7d"

/-- Comma-separated repr of list items. -/
def pyReprList : List Value → String
  | [] => ""
  | [v] => pyRepr v
  | v :: rest => pyRepr v ++ ", " ++ pyReprList rest

/-- Comma-separated repr of dict items. -/
def pyReprObj : List (String × Value) → String
  | [] => ""
  | [(k, v)] => "\x27" ++ k ++ "\x27: " ++ pyRepr v
  | (k, v) :: rest => "\x27" ++ k ++ "\x27: " ++ pyRepr v ++ ", " ++ pyReprObj rest

end

/-- Python str() of a `Value`, i.e. what '%s' interpolates. -/
def pyStr : Value → String
  | .vstr s => s
  | v => pyRepr v

mutual

/-- json.dumps of a `Value` (string escaping elided; the default
separators ", " and ": " are used, as in the source). -/
def jsonDumps : Value → String
  | .vnull => "null"
  | .vbool true => "true"
  | .vbool false => "false"
  | .vnum s => s
  | .vstr s => "\"" ++ s ++ "\""
  | .varr l => "[" ++ jsonDumpsList l ++ "]"
  | .vobj l => "\x7b" ++ jsonDumpsObj l ++ "\x7d"

/-- Comma-separated JSON of list items. -/
def jsonDumpsList : List Value → String
  | [] => ""
  | [v] => jsonDumps v
  | v :: rest => jsonDumps v ++ ", " ++ jsonDumpsList rest

/-- Comma-separated JSON of dict items. -/
def jsonDumpsObj : List (String × Value) → String
  | [] => ""
  | [(k, v)] => "\"" ++ k ++ "\": " ++ jsonDumps v
  | (k, v) :: rest => "\"" ++ k ++ "\": " ++ jsonDumps v ++ ", " ++ jsonDumpsObj rest

end

/-- Python dict lookup on an association list (first matching key wins;
dicts never hold duplicate keys, so this is exact). -/
def alookup {α : Type} : List (String × α) → String → Option α
  | [], _ => none
  | (k', v) :: rest, k => if k' = k then some v else alookup rest k

/-- The keys of an association list, in order. -/
def keys {α : Type} (l : List (String × α)) : List String := l.map Prod.fst

/-- Python dict assignment `d[k] = v`: replaces the value in place if the
key is present (keeping its position), otherwise appends the new pair. -/
def dictInsert {α : Type} : List (String × α) → String → α → List (String × α)
  | [], k, v => [(k, v)]
  | p :: rest, k, v => if p.1 = k then (k, v) :: rest else p :: dictInsert rest k v

/-! ## parsers.parse_datetime

`datetime.strptime` for the two fixed format strings used by the source,
modelled at the character level with CPython's field regexes
(%Y = 4 digits; %m, %d, %H, %M, %S = one or two digits within range,
two-digit form preferred with backtracking; %f = 1 to 6 digits) and the
datetime constructor's day-of-month and year validation. -/

/-- A Python `datetime.datetime` value. -/
structure datetime where
  year : Nat
  month : Nat
  day : Nat
  hour : Nat
  minute : Nat
  second : Nat
  microsecond : Nat
deriving DecidableEq, Repr

/-- ASCII digit test ('\d' on the inputs the code meets). -/
def isDig (c : Char) : Bool := c.isDigit

/-- Numeric value of an ASCII digit. -/
def digitVal (c : Char) : Nat := c.toNat - 48

/-- Gregorian leap year. -/
def isLeap (y : Nat) : Bool := y % 4 = 0 && (y % 100 ≠ 0 || y % 400 = 0)

/-- Days in a month, as validated by the datetime constructor. -/
def daysInMonth (y m : Nat) : Nat :=
  if m = 2 then (if isLeap y then 29 else 28)
  else if m = 4 ∨ m = 6 ∨ m = 9 ∨ m = 11 then 30
  else 31

/-- `datetime(y, mo, d, h, mi, s, us)`: the constructor validation that
strptime's regex does not already guarantee (year ≥ 1, day fits month). -/
def mkdt (y mo d h mi s us : Nat) : Option datetime :=
  if 1 ≤ y ∧ d ≤ daysInMonth y mo then some ⟨y, mo, d, h, mi, s, us⟩ else none

/-- A one-or-two digit numeric field with value bounds, preferring the
two-digit form and backtracking into the continuation, as CPython's
strptime regex alternation does. -/
def field (lo hi : Nat) (k : Nat → List Char → Option datetime) :
    List Char → Option datetime
  | a :: b :: rest =>
    (if isDig a && isDig b then
      let v := 10 * digitVal a + digitVal b
      if lo ≤ v ∧ v ≤ hi then k v rest else none
    else none) <|>
    (if isDig a then
      let v := digitVal a
      if lo ≤ v ∧ v ≤ hi then k v (b :: rest) else none
    else none)
  | [a] =>
    if isDig a then
      let v := digitVal a
      if lo ≤ v ∧ v ≤ hi then k v [] else none
    else none
  | [] => none

/-- A literal character in the format string. -/
def lit (c : Char) (k : List Char → Option datetime) : List Char → Option datetime
  | x :: rest => if x = c then k rest else none
  | [] => none

/-- %Y: exactly four digits. -/
def year4 (k : Nat → List Char → Option datetime) : List Char → Option datetime
  | a :: b :: c :: d :: rest =>
    if isDig a && isDig b && isDig c && isDig d then
      k (1000 * digitVal a + 100 * digitVal b + 10 * digitVal c + digitVal d) rest
    else none
  | _ => none

/-- Decimal value of a digit run. -/
def natOfDigits (l : List Char) : Nat := l.foldl (fun acc c => 10 * acc + digitVal c) 0

/-- %f at end of format: one to six digits, scaled to microseconds. -/
def frac (k : Nat → List Char → Option datetime) (cs : List Char) : Option datetime :=
  let ds := cs.takeWhile isDig
  let rest := cs.dropWhile isDig
  if 1 ≤ ds.length ∧ ds.length ≤ 6 then
    k (natOfDigits ds * 10 ^ (6 - ds.length)) rest
  else none

/-- `datetime.strptime(s, "%Y-%m-%dT%H:%M:%S")`, `none` meaning ValueError. -/
def strptime_sec (s : String) : Option datetime :=
  year4 (fun y => lit '-' (field 1 12 (fun mo => lit '-' (field 1 31 (fun d =>
    lit 'T' (field 0 23 (fun h => lit ':' (field 0 59 (fun mi =>
      lit ':' (field 0 59 (fun sec cs =>
        if cs = [] then mkdt y mo d h mi sec 0 else none))))))))))) s.data

/-- `datetime.strptime(s, "%Y-%m-%dT%H:%M:%S.%f")`, `none` meaning ValueError. -/
def strptime_frac (s : String) : Option datetime :=
  year4 (fun y => lit '-' (field 1 12 (fun mo => lit '-' (field 1 31 (fun d =>
    lit 'T' (field 0 23 (fun h => lit ':' (field 0 59 (fun mi =>
      lit ':' (field 0 59 (fun sec => lit '.' (frac (fun us cs =>
        if cs = [] then mkdt y mo d h mi sec us else none))))))))))))) s.data

/-- `parsers.parse_datetime`: empty string gives None; otherwise the
fractional-seconds format is tried first and whole seconds second; the
error carries the offending input (the uncaught ValueError). -/
def parse_datetime (s : String) : Except String (Option datetime) :=
  if s = "" then .ok none
  else
    match strptime_frac s with
    | some d => .ok (some d)
    | none =>
      match strptime_sec s with
      | some d => .ok (some d)
      | none => .error s

/-! ## parsers.parse_geom -/

/-- How `parsers.parse_geom` can fail: the explicit NotImplementedError
naming the unsupported type, or the implicit KeyError / IndexError /
TypeError from subscripting the input record. -/
inductive GeomErr where
  | unsupported (t : String)
  | keyError (k : String)
  | indexError
  | typeErr
deriving DecidableEq

/-- The SRID-tagged well-known-text point literal built by the source. -/
def pointWkt (a b : String) : String := "SRID=4326;POINT(" ++ a ++ " " ++ b ++ ")"

/-- `parsers.parse_geom`: input is None or a record (its declared domain).
Mirrors the source: lat/long branch, address-only branch, then the
subscript `geo_data[type]` and the Point branch on `coordinates`. -/
def parse_geom (x : Option (List (String × Value))) : Except GeomErr (Option String) :=
  match x with
  | none => .ok none
  | some g =>
    match alookup g "latitude", alookup g "longitude" with
    | some lat, some lng => .ok (some (pointWkt (pyStr lat) (pyStr lng)))
    | latOpt, _ =>
      if (alookup g "human_address").isSome && !latOpt.isSome then .ok none
      else
        match alookup g "type" with
        | none => .error (.keyError "type")
        | some (.vstr s) =>
          if s = "Point" then
            match alookup g "coordinates" with
            | some (.varr (c0 :: c1 :: _)) => .ok (some (pointWkt (pyStr c0) (pyStr c1)))
            | some (.varr _) => .error .indexError
            | some (.vstr s2) =>
              match s2.data with
              | c0 :: c1 :: _ =>
                .ok (some (pointWkt (String.singleton c0) (String.singleton c1)))
              | _ => .error .indexError
            | some (.vobj _) => .error (.keyError "0")
            | some _ => .error .typeErr
            | none => .error (.keyError "coordinates")
          else .error (.unsupported s)
        | some t => .error (.unsupported (pyStr t))

/-! ## parsers.parse_str -/

/-- `parsers.parse_str`: dicts with a url field give that field, other
dicts are serialized to JSON, everything else passes through. -/
def parse_str (v : Value) : Value :=
  match v with
  | .vobj fields =>
    match alookup fields "url" with
    | some u => u
    | none => .vstr (jsonDumps (.vobj fields))
  | _ => v

/-! ## cli.get_sql_col -/

/-- The SQLalchemy column types the source maps to. -/
inductive SQLType where
  | boolean
  | text
  | numeric
  | datetime
  | integer
  | geomPoint
deriving DecidableEq, Repr

/-- A SQLalchemy Column: its type and whether it is a primary key. -/
structure Col where
  type : SQLType
  primaryKey : Bool
deriving DecidableEq, Repr

/-- The fixed seven-entry `col_mappings` table from `get_sql_col`. -/
def col_mappings : List (String × SQLType) :=
  [("checkbox", .boolean),
   ("url", .text),
   ("text", .text),
   ("number", .numeric),
   ("calendar_date", .datetime),
   ("point", .geomPoint),
   ("location", .geomPoint)]

/-- The NotImplementedError message raised for an unmapped type. -/
def unsupportedMsg (t : String) : String :=
  "Unable to map Socrata type \"" ++ t ++ "\" to a SQL type."

/-- `cli.get_sql_col`: look the Socrata type up in the fixed table and wrap
it in a Column, or fail with the message naming the type. -/
def get_sql_col (t : String) : Except String Col :=
  match alookup col_mappings t with
  | some ty => .ok ⟨ty, false⟩
  | none => .error (unsupportedMsg t)

/-! ## cli.get_binding -/

/-- One remote column's metadata, as consumed by `get_binding`. -/
structure RemoteCol where
  fieldName : String
  dataTypeName : String
deriving DecidableEq, Repr

/-- `col_type in (location, point)`. -/
def isGeoType (t : String) : Bool := t = "location" || t = "point"

/-- `col_name.startswith(":@computed")`. -/
def isComputed (n : String) : Bool := n.startsWith ":@computed"

/-- The synthetic primary key `Column(Integer, primary_key=True)`. -/
def pkCol : Col := ⟨.integer, true⟩

/-- The loop of `cli.get_binding` over the remote columns, threading the
`record_fields` dict (as an ordered association list; `__tablename__` is
not a column and is omitted).  Skips geometry columns without geometry
support, computed columns, and unmapped types; otherwise performs the dict
assignment `record_fields[col_name] = get_sql_col(col_type)`. -/
def get_binding_aux (geo : Bool) :
    List RemoteCol → List (String × Col) → List (String × Col)
  | [], acc => acc
  | c :: rest, acc =>
    if isGeoType c.dataTypeName && !geo then get_binding_aux geo rest acc
    else if isComputed c.fieldName then get_binding_aux geo rest acc
    else
      match get_sql_col c.dataTypeName with
      | .ok col => get_binding_aux geo rest (dictInsert acc c.fieldName col)
      | .error _ => get_binding_aux geo rest acc

/-- `cli.get_binding`: the Binding's ordered column dict, starting from the
synthetic `_pk_` primary key. -/
def get_binding (cols : List RemoteCol) (geo : Bool) : List (String × Col) :=
  get_binding_aux geo cols [("_pk_", pkCol)]

/-- The column `get_binding` would add for one remote column: none when a
skip rule or the type mapper rejects it. -/
def includedCol (geo : Bool) (c : RemoteCol) : Option (String × Col) :=
  if isGeoType c.dataTypeName && !geo then none
  else if isComputed c.fieldName then none
  else
    match get_sql_col c.dataTypeName with
    | .ok col => some (c.fieldName, col)
    | .error _ => none

/-- The Binding as the spec words it (§4.3): the synthetic primary key
first, then one entry per surviving remote column in remote order. -/
def get_binding_spec (cols : List RemoteCol) (geo : Bool) : List (String × Col) :=
  ("_pk_", pkCol) :: cols.filterMap (includedCol geo)

/-! ## cli.parse_row -/

/-- A value as placed in the parsed row dict: None, a datetime, or any
other Python value (strings, raw API values passed through). -/
inductive PyObj where
  | vnone
  | vdt (d : datetime)
  | vval (v : Value)

/-- How a row coercion can fail: the ValueError from `parse_datetime`, an
error from `parse_geom`, or a TypeError from handing a parser a value of a
shape it cannot subscript. -/
inductive RowErr where
  | malformedTimestamp (s : String)
  | geomErr (e : GeomErr)
  | typeErr

/-- One value coercion in `cli.parse_row`: the `parsers` dict keyed by the
column's SQLalchemy type class (DateTime, Geometry, Text); every other
type passes the raw value through. -/
def coerceVal (ty : SQLType) (v : Value) : Except RowErr PyObj :=
  match ty with
  | .datetime =>
    match v with
    | .vstr s =>
      match parse_datetime s with
      | .ok none => .ok .vnone
      | .ok (some d) => .ok (.vdt d)
      | .error e => .error (.malformedTimestamp e)
    | _ => .error .typeErr
  | .geomPoint =>
    match v with
    | .vnull =>
      match parse_geom none with
      | .ok none => .ok .vnone
      | .ok (some s) => .ok (.vval (.vstr s))
      | .error e => .error (.geomErr e)
    | .vobj fields =>
      match parse_geom (some fields) with
      | .ok none => .ok .vnone
      | .ok (some s) => .ok (.vval (.vstr s))
      | .error e => .error (.geomErr e)
    | _ => .error .typeErr
  | .text => .ok (.vval (parse_str v))
  | _ => .ok (.vval v)

/-- The loop of `cli.parse_row` over the raw row's items, threading the
`parsed` dict: keys absent from the binding's columns are skipped, bound
keys are coerced by the column type's parser. -/
def parse_rowAux (binding : List (String × Col)) :
    List (String × Value) → List (String × PyObj) →
    Except RowErr (List (String × PyObj))
  | [], parsed => .ok parsed
  | (col_name, col_val) :: rest, parsed =>
    match alookup binding col_name with
    | none => parse_rowAux binding rest parsed
    | some col =>
      match coerceVal col.type col_val with
      | .error e => .error e
      | .ok pv => parse_rowAux binding rest (dictInsert parsed col_name pv)

/-- `cli.parse_row`: parse API data into the types the binding expects. -/
def parse_row (row : List (String × Value)) (binding : List (String × Col)) :
    Except RowErr (List (String × PyObj)) :=
  parse_rowAux binding row []

/-! ## cli.get_dataset -/

/-- The while loop of `cli.get_dataset`, with the remote source modelled
as a function from requested offset to returned page and a fuel bound on
the number of iterations considered.  Returns the offsets requested and
the pages yielded, in order. -/
def getDatasetAux {α : Type} (fetch : Nat → List α) (page_size : Nat) :
    Nat → Nat → List Nat × List (List α)
  | 0, _ => ([], [])
  | fuel + 1, page_num =>
    let api_data := fetch (page_size * page_num)
    if api_data.length < page_size then ([page_size * page_num], [api_data])
    else
      let rest := getDatasetAux fetch page_size fuel (page_num + 1)
      (page_size * page_num :: rest.1, api_data :: rest.2)

/-- The pages yielded by `cli.get_dataset`. -/
def get_dataset {α : Type} (fetch : Nat → List α) (page_size fuel : Nat) :
    List (List α) :=
  (getDatasetAux fetch page_size fuel 0).2

/-- The offsets `cli.get_dataset` requests from the API. -/
def get_dataset_requests {α : Type} (fetch : Nat → List α) (page_size fuel : Nat) :
    List Nat :=
  (getDatasetAux fetch page_size fuel 0).1

/-! ## cli.get_connection: the PostGIS probe -/

/-- The exception classes relevant to the probe query in
`cli.get_connection`. -/
inductive DbError where
  | operationalError
  | programmingError
deriving DecidableEq

/-- The PostGIS capability probe in `cli.get_connection`: the outcome of
`session.execute("SELECT PostGIS_version();")` is `none` on success or
`some e` when the query raises `e`.  Only OperationalError is caught. -/
def probe_postgis (outcome : Option DbError) : Except DbError Bool :=
  match outcome with
  | none => .ok true
  | some .operationalError => .ok false
  | some e => .error e

/-! ## cli.main: the insert path's row counting and success report -/

/-- The success message `main` prints, with `num_rows` the value the
pre-ingestion count query returned (`get_row_count`). -/
def successMessage (num_rows : Nat) (name : String) : String :=
  "Successfully imported " ++ toString num_rows ++ " rows from \"" ++ name ++ "\"."

/-- The row-count/reporting slice of `cli.main`'s insert branch: rows are
staged page by page (the progress bar advances by each page's length) and
the final message interpolates the count-query result, not the number of
rows actually fetched.  Returns (rows staged, success message). -/
def runInsert {α : Type} (name : String) (num_rows : Nat) (fetch : Nat → List α)
    (page_size fuel : Nat) : Nat × String :=
  (((get_dataset fetch page_size fuel).map List.length).sum,
   successMessage num_rows name)

/-! ## Theorems -/

/-- C1: the geometry coercer maps null to null; a record with latitude and
longitude fields to the EWKT literal with the latitude value in the first
(X) slot and the longitude value in the second (Y) slot; a record with
human_address and no latitude to null; and a record whose type field is
"Point" (reached when the earlier branches do not fire) to the literal in
coordinates element order. -/
theorem c1_geometry_coercer :
    parse_geom none = Except.ok none ∧
    (∀ g lat lng, alookup g "latitude" = some lat → alookup g "longitude" = some lng →
      parse_geom (some g) = Except.ok (some (pointWkt (pyStr lat) (pyStr lng)))) ∧
    (∀ g, (alookup g "human_address").isSome = true → alookup g "latitude" = none →
      parse_geom (some g) = Except.ok none) ∧
    (∀ g c0 c1 rest, alookup g "latitude" = none → alookup g "human_address" = none →
      alookup g "type" = some (Value.vstr "Point") →
      alookup g "coordinates" = some (Value.varr (c0 :: c1 :: rest)) →
      parse_geom (some g) = Except.ok (some (pointWkt (pyStr c0) (pyStr c1)))) := by
  refine ⟨rfl, ?_, ?_, ?_⟩
  · intro g lat lng h1 h2
    simp [parse_geom, h1, h2]
  · intro g h1 h2
    simp [parse_geom, h1, h2]
  · intro g c0 c1 rest h1 h2 h3 h4
    simp [parse_geom, h1, h2, h3, h4]

/-- Witness for C1 at the test suite's concrete inputs. -/
theorem c1_witness :
    parse_geom (some [("latitude", Value.vnum "41.8657001"),
        ("longitude", Value.vnum "-87.761102")]) =
      Except.ok (some "SRID=4326;POINT(41.8657001 -87.761102)") ∧
    parse_geom (some [("type", Value.vstr "Point"),
        ("coordinates", Value.varr [Value.vnum "41.8657001", Value.vnum "-87.761102"])]) =
      Except.ok (some "SRID=4326;POINT(41.8657001 -87.761102)") :=
  ⟨c1_geometry_coercer.2.1
    [("latitude", Value.vnum "41.8657001"), ("longitude", Value.vnum "-87.761102")]
    (Value.vnum "41.8657001") (Value.vnum "-87.761102") rfl rfl,
   c1_geometry_coercer.2.2.2
    [("type", Value.vstr "Point"),
     ("coordinates", Value.varr [Value.vnum "41.8657001", Value.vnum "-87.761102"])]
    (Value.vnum "41.8657001") (Value.vnum "-87.761102") [] rfl rfl rfl rfl⟩

/-- C2: the type mapper sends each of the seven documented remote type
names to its documented relational type and fails on every other name
with an error naming that name: no default fallback. -/
theorem c2_type_mapper :
    get_sql_col "checkbox" = Except.ok ⟨.boolean, false⟩ ∧
    get_sql_col "url" = Except.ok ⟨.text, false⟩ ∧
    get_sql_col "text" = Except.ok ⟨.text, false⟩ ∧
    get_sql_col "number" = Except.ok ⟨.numeric, false⟩ ∧
    get_sql_col "calendar_date" = Except.ok ⟨.datetime, false⟩ ∧
    get_sql_col "point" = Except.ok ⟨.geomPoint, false⟩ ∧
    get_sql_col "location" = Except.ok ⟨.geomPoint, false⟩ ∧
    (∀ t, t ∉ ["checkbox", "url", "text", "number", "calendar_date", "point", "location"] →
      get_sql_col t = Except.error (unsupportedMsg t)) := by
  refine ⟨rfl, rfl, rfl, rfl, rfl, rfl, rfl, ?_⟩
  intro t ht
  simp only [get_sql_col, col_mappings, alookup]
  repeat rw [if_neg (by rintro rfl; exact ht (by decide))]

/-- Witness for C2 at the unmapped remote type "money". -/
theorem c2_witness :
    get_sql_col "money" = Except.error (unsupportedMsg "money") :=
  c2_type_mapper.2.2.2.2.2.2.2 "money" (by decide)

/-- C9 counterexample: only OperationalError is caught by the probe; a
ProgrammingError raised by the probe query propagates as a fatal error
rather than making the probe return false. -/
theorem c9_counterexample :
    probe_postgis (some .programmingError) = Except.error .programmingError ∧
    probe_postgis (some .programmingError) ≠ Except.ok false ∧
    probe_postgis (some .programmingError) ≠ Except.ok true :=
  ⟨rfl, fun h => Except.noConfusion h, fun h => Except.noConfusion h⟩

/-- C9 amended: a successful probe query reports geometry support; a query
failing with OperationalError makes the probe return false without
aborting; a query failure of any other kind propagates unchanged. -/
theorem c9_amended :
    probe_postgis none = Except.ok true ∧
    probe_postgis (some .operationalError) = Except.ok false ∧
    (∀ e, e ≠ DbError.operationalError → probe_postgis (some e) = Except.error e) := by
  refine ⟨rfl, rfl, ?_⟩
  intro e he
  cases e with
  | operationalError => exact absurd rfl he
  | programmingError => rfl

/-- Witness for C9 amended at a ProgrammingError outcome. -/
theorem c9_witness :
    probe_postgis (some DbError.programmingError) =
      Except.error DbError.programmingError :=
  c9_amended.2.2 DbError.programmingError (by decide)

/-- C6 counterexample: the claim's own example input — a record having
latitude but lacking longitude, human_address and type — does not yield a
value or an UnsupportedGeometryError; the code falls through to the
subscript `geo_data["type"]` and dies with a KeyError. -/
theorem c6_counterexample :
    parse_geom (some [("latitude", Value.vnum "41.0")]) =
      Except.error (GeomErr.keyError "type") ∧
    (∀ t, GeomErr.keyError "type" ≠ GeomErr.unsupported t) :=
  ⟨rfl, fun _ h => GeomErr.noConfusion h⟩

/-- C6 amended: the geometry coercer is total over null, latitude+longitude
records, address-without-latitude records, records with a non-"Point" type
tag (UnsupportedGeometryError naming the tag) and "Point" records with a
two-element coordinates array; but a record reaching the type branch with
no type key fails with a KeyError on "type" (the claim's latitude-only
example lands here). -/
theorem c6_amended :
    parse_geom none = Except.ok none ∧
    (∀ g lat lng, alookup g "latitude" = some lat → alookup g "longitude" = some lng →
      ∃ s, parse_geom (some g) = Except.ok (some s)) ∧
    (∀ g, (alookup g "human_address").isSome = true → alookup g "latitude" = none →
      parse_geom (some g) = Except.ok none) ∧
    (∀ g s, alookup g "latitude" = none → alookup g "human_address" = none →
      alookup g "type" = some (Value.vstr s) → s ≠ "Point" →
      parse_geom (some g) = Except.error (GeomErr.unsupported s)) ∧
    (∀ g t, alookup g "latitude" = none → alookup g "human_address" = none →
      alookup g "type" = some t → (∀ s, t ≠ Value.vstr s) →
      parse_geom (some g) = Except.error (GeomErr.unsupported (pyStr t))) ∧
    (∀ g c0 c1 rest, alookup g "latitude" = none → alookup g "human_address" = none →
      alookup g "type" = some (Value.vstr "Point") →
      alookup g "coordinates" = some (Value.varr (c0 :: c1 :: rest)) →
      ∃ s, parse_geom (some g) = Except.ok (some s)) ∧
    (∀ g, alookup g "latitude" = none → alookup g "human_address" = none →
      alookup g "type" = none →
      parse_geom (some g) = Except.error (GeomErr.keyError "type")) := by
  refine ⟨rfl, ?_, ?_, ?_, ?_, ?_, ?_⟩
  · intro g lat lng h1 h2
    refine ⟨pointWkt (pyStr lat) (pyStr lng), ?_⟩
    simp [parse_geom, h1, h2]
  · intro g h1 h2
    simp [parse_geom, h1, h2]
  · intro g s h1 h2 h3 hs
    simp [parse_geom, h1, h2, h3, hs]
  · intro g t h1 h2 h3 hns
    cases t with
    | vstr s => exact absurd rfl (hns s)
    | vnull => simp [parse_geom, h1, h2, h3]
    | vbool b => simp [parse_geom, h1, h2, h3]
    | vnum s => simp [parse_geom, h1, h2, h3]
    | varr l => simp [parse_geom, h1, h2, h3]
    | vobj l => simp [parse_geom, h1, h2, h3]
  · intro g c0 c1 rest h1 h2 h3 h4
    refine ⟨pointWkt (pyStr c0) (pyStr c1), ?_⟩
    simp [parse_geom, h1, h2, h3, h4]
  · intro g h1 h2 h3
    simp [parse_geom, h1, h2, h3]

/-- Witness for C6 amended at the test suite's unrecognized type input. -/
theorem c6_witness :
    parse_geom (some [("type", Value.vstr "Circle")]) =
      Except.error (GeomErr.unsupported "Circle") :=
  c6_amended.2.2.2.1 [("type", Value.vstr "Circle")] "Circle" rfl rfl rfl
    (by decide)

/-- C7: the temporal coercer sends the empty string to null; otherwise
tries the fractional-seconds format first, falling back to whole seconds,
so the two example timestamps yield the same value; when neither format
matches it fails with the ValueError naming the input. -/
theorem c7_temporal_coercer :
    parse_datetime "" = Except.ok none ∧
    (∀ s d, s ≠ "" → strptime_frac s = some d →
      parse_datetime s = Except.ok (some d)) ∧
    (∀ s d, s ≠ "" → strptime_frac s = none → strptime_sec s = some d →
      parse_datetime s = Except.ok (some d)) ∧
    (∀ s, s ≠ "" → strptime_frac s = none → strptime_sec s = none →
      parse_datetime s = Except.error s) ∧
    parse_datetime "2014-10-13T10:05:00" =
      Except.ok (some ⟨2014, 10, 13, 10, 5, 0, 0⟩) ∧
    parse_datetime "2014-10-13T10:05:00.000" =
      Except.ok (some ⟨2014, 10, 13, 10, 5, 0, 0⟩) := by
  refine ⟨rfl, ?_, ?_, ?_, rfl, rfl⟩
  · intro s d hs h1
    simp [parse_datetime, hs, h1]
  · intro s d hs h1 h2
    simp [parse_datetime, hs, h1, h2]
  · intro s hs h1 h2
    simp [parse_datetime, hs, h1, h2]

/-- Witness for C7 at the whole-second example (fractional parse fails,
whole-second parse succeeds). -/
theorem c7_witness :
    parse_datetime "2014-10-13T10:05:00" =
      Except.ok (some ⟨2014, 10, 13, 10, 5, 0, 0⟩) :=
  c7_temporal_coercer.2.2.1 "2014-10-13T10:05:00" ⟨2014, 10, 13, 10, 5, 0, 0⟩
    (by decide) (by decide) (by decide)

/-- The while loop of `get_dataset`, given enough fuel, requests and
yields exactly the pages up to and including the first short one. -/
theorem getDatasetAux_eq {α : Type} (fetch : Nat → List α) (ps : Nat)
    (h : ∃ n, (fetch (ps * n)).length < ps) :
    ∀ fuel n, n ≤ Nat.find h → Nat.find h - n < fuel →
      getDatasetAux fetch ps fuel n =
        ((List.range' n (Nat.find h - n + 1)).map (fun i => ps * i),
         (List.range' n (Nat.find h - n + 1)).map (fun i => fetch (ps * i))) := by
  intro fuel
  induction fuel with
  | zero => intro n _ hf; exact absurd hf (Nat.not_lt_zero _)
  | succ f ih =>
    intro n hn hf
    by_cases hnk : n = Nat.find h
    · subst hnk
      have hshort := Nat.find_spec h
      simp [getDatasetAux, hshort, Nat.sub_self, List.range'_succ]
    · have hlt : n < Nat.find h := lt_of_le_of_ne hn hnk
      have hns : ¬ (fetch (ps * n)).length < ps := Nat.find_min h hlt
      have h2 : Nat.find h - (n + 1) < f := by omega
      have hrng : Nat.find h - n + 1 = (Nat.find h - (n + 1) + 1) + 1 := by omega
      simp only [getDatasetAux, hns, if_false]
      rw [ih (n + 1) hlt h2, hrng]
      simp [List.range'_succ]

/-- C3: with some response shorter than the page size (index
`Nat.find h`), the paginated fetcher requests offsets pageSize times 0, 1,
... in order, yields exactly the pages through the first short one, stops
there (no request beyond offset pageSize times the short index), and a
page of exactly pageSize rows is always followed by a further request. -/
theorem c3_pagination {α : Type} (fetch : Nat → List α) (ps fuel : Nat)
    (h : ∃ n, (fetch (ps * n)).length < ps) (hfuel : Nat.find h < fuel) :
    get_dataset_requests fetch ps fuel =
      (List.range (Nat.find h + 1)).map (fun i => ps * i) ∧
    get_dataset fetch ps fuel =
      (List.range (Nat.find h + 1)).map (fun i => fetch (ps * i)) ∧
    (∀ i, i < Nat.find h → ¬ (fetch (ps * i)).length < ps) ∧
    (fetch (ps * Nat.find h)).length < ps ∧
    (∀ o ∈ get_dataset_requests fetch ps fuel, o ≤ ps * Nat.find h) ∧
    (∀ i, i ≤ Nat.find h → (fetch (ps * i)).length = ps →
      ps * (i + 1) ∈ get_dataset_requests fetch ps fuel) := by
  have key := getDatasetAux_eq fetch ps h fuel 0 (Nat.zero_le _) (by omega)
  simp only [Nat.sub_zero] at key
  have hreq : get_dataset_requests fetch ps fuel =
      (List.range (Nat.find h + 1)).map (fun i => ps * i) := by
    unfold get_dataset_requests
    rw [key, ← List.range_eq_range']
  have hyld : get_dataset fetch ps fuel =
      (List.range (Nat.find h + 1)).map (fun i => fetch (ps * i)) := by
    unfold get_dataset
    rw [key, ← List.range_eq_range']
  refine ⟨hreq, hyld, ?_, Nat.find_spec h, ?_, ?_⟩
  · intro i hi
    exact Nat.find_min h hi
  · intro o ho
    rw [hreq] at ho
    obtain ⟨i, hi, rfl⟩ := List.mem_map.1 ho
    have hilt := List.mem_range.1 hi
    exact Nat.mul_le_mul_left ps (by omega : i ≤ Nat.find h)
  · intro i hi hlen
    have hik : i ≠ Nat.find h := by
      intro e
      have hsp := Nat.find_spec h
      rw [← e] at hsp
      omega
    rw [hreq]
    exact List.mem_map.2 ⟨i + 1, List.mem_range.2 (by omega), rfl⟩

/-- Witness for C3: a 7-row dataset at page size 3 is requested at
offsets 0, 3, 6 and yielded as two full pages and one short page. -/
theorem c3_witness :
    get_dataset_requests (fun o => ((List.range 7).drop o).take 3) 3 10 =
      [0, 3, 6] ∧
    get_dataset (fun o => ((List.range 7).drop o).take 3) 3 10 =
      [[0, 1, 2], [3, 4, 5], [6]] := by
  have h : ∃ n, (((List.range 7).drop (3 * n)).take 3).length < 3 := ⟨2, by decide⟩
  have hk : Nat.find h = 2 := by
    rw [Nat.find_eq_iff]
    exact ⟨by decide, by decide⟩
  obtain ⟨h1, h2, -⟩ :=
    c3_pagination (fun o => ((List.range 7).drop o).take 3) 3 10 h
      (by rw [hk]; norm_num)
  rw [hk] at h1 h2
  exact ⟨h1.trans (by decide), h2.trans (by decide)⟩

/-- Inserting a fresh key into a dict appends it. -/
theorem dictInsert_of_not_mem {α : Type} {l : List (String × α)} {k : String}
    (v : α) (h : k ∉ keys l) : dictInsert l k v = l ++ [(k, v)] := by
  induction l with
  | nil => rfl
  | cons p rest ih =>
    simp only [keys, List.map_cons, List.mem_cons, not_or] at h
    have hp : p.1 ≠ k := fun e => h.1 e.symm
    simp only [dictInsert, if_neg hp, List.cons_append]
    rw [ih (by simpa [keys] using h.2)]

/-- The keys after a dict assignment are the old keys plus the new one. -/
theorem mem_keys_dictInsert {α : Type} {l : List (String × α)} {k k' : String}
    {v : α} : k' ∈ keys (dictInsert l k v) ↔ k' = k ∨ k' ∈ keys l := by
  induction l with
  | nil => simp [dictInsert, keys]
  | cons p rest ih =>
    by_cases hp : p.1 = k
    · rw [show dictInsert (p :: rest) k v = (k, v) :: rest from by
        simp [dictInsert, hp]]
      simp only [keys, List.map_cons, List.mem_cons]
      rw [hp]
      tauto
    · simp only [dictInsert, if_neg hp, keys, List.map_cons, List.mem_cons]
      rw [show (List.map Prod.fst (dictInsert rest k v) : List String) =
        keys (dictInsert rest k v) from rfl]
      rw [ih]
      tauto

/-- A dict assignment keeps the key list duplicate-free. -/
theorem keys_dictInsert_nodup {α : Type} {l : List (String × α)} {k : String}
    {v : α} (h : (keys l).Nodup) : (keys (dictInsert l k v)).Nodup := by
  induction l with
  | nil => simp [dictInsert, keys]
  | cons p rest ih =>
    simp only [keys, List.map_cons, List.nodup_cons] at h
    by_cases hp : p.1 = k
    · simp only [dictInsert, if_pos hp, keys, List.map_cons, List.nodup_cons]
      exact ⟨by rw [← hp]; exact h.1, h.2⟩
    · simp only [dictInsert, if_neg hp, keys, List.map_cons, List.nodup_cons]
      refine ⟨?_, ih h.2⟩
      rw [show (List.map Prod.fst (dictInsert rest k v) : List String) =
        keys (dictInsert rest k v) from rfl]
      rw [mem_keys_dictInsert]
      rintro (e | e)
      · exact hp e
      · exact h.1 e

/-- A dict assignment with a key other than the head's keeps the head. -/
theorem dictInsert_head {α : Type} {l : List (String × α)} {k : String}
    {v : α} {p : String × α} (h : l.head? = some p) (hk : p.1 ≠ k) :
    (dictInsert l k v).head? = some p := by
  cases l with
  | nil => exact absurd h (by simp)
  | cons q rest =>
    simp only [List.head?_cons, Option.some.injEq] at h
    subst h
    simp [dictInsert, if_neg hk]

/-- With pairwise-distinct column names none of which collides with the
accumulated dict, the `get_binding` loop appends exactly the surviving
columns, in order. -/
theorem get_binding_aux_append (geo : Bool) :
    ∀ (cols : List RemoteCol) (acc : List (String × Col)),
      (∀ c ∈ cols, c.fieldName ∉ keys acc) →
      (cols.map RemoteCol.fieldName).Nodup →
      get_binding_aux geo cols acc = acc ++ cols.filterMap (includedCol geo) := by
  intro cols
  induction cols with
  | nil => intro acc _ _; simp [get_binding_aux]
  | cons c rest ih =>
    intro acc hacc hnd
    simp only [List.map_cons, List.nodup_cons] at hnd
    by_cases h1 : (isGeoType c.dataTypeName && !geo) = true
    · rw [show get_binding_aux geo (c :: rest) acc = get_binding_aux geo rest acc
        from by simp [get_binding_aux, h1]]
      rw [show (c :: rest).filterMap (includedCol geo) =
        rest.filterMap (includedCol geo) from by
          simp [List.filterMap_cons, includedCol, h1]]
      exact ih acc (fun c' hc' => hacc c' (List.mem_cons_of_mem c hc')) hnd.2
    · by_cases h2 : isComputed c.fieldName = true
      · rw [show get_binding_aux geo (c :: rest) acc = get_binding_aux geo rest acc
          from by simp [get_binding_aux, h1, h2]]
        rw [show (c :: rest).filterMap (includedCol geo) =
          rest.filterMap (includedCol geo) from by
            simp [List.filterMap_cons, includedCol, h1, h2]]
        exact ih acc (fun c' hc' => hacc c' (List.mem_cons_of_mem c hc')) hnd.2
      · cases hcol : get_sql_col c.dataTypeName with
        | error e =>
          rw [show get_binding_aux geo (c :: rest) acc = get_binding_aux geo rest acc
            from by simp [get_binding_aux, h1, h2, hcol]]
          rw [show (c :: rest).filterMap (includedCol geo) =
            rest.filterMap (includedCol geo) from by
              simp [List.filterMap_cons, includedCol, h1, h2, hcol]]
          exact ih acc (fun c' hc' => hacc c' (List.mem_cons_of_mem c hc')) hnd.2
        | ok col =>
          rw [show get_binding_aux geo (c :: rest) acc =
            get_binding_aux geo rest (dictInsert acc c.fieldName col) from by
              simp [get_binding_aux, h1, h2, hcol]]
          rw [show (c :: rest).filterMap (includedCol geo) =
            (c.fieldName, col) :: rest.filterMap (includedCol geo) from by
              simp [List.filterMap_cons, includedCol, h1, h2, hcol]]
          rw [dictInsert_of_not_mem col (hacc c (List.mem_cons_self c rest))]
          rw [ih (acc ++ [(c.fieldName, col)]) ?_ hnd.2]
          · simp
          · intro c' hc'
            simp only [keys, List.map_append, List.mem_append, not_or]
            refine ⟨hacc c' (List.mem_cons_of_mem c hc'), ?_⟩
            simp only [List.map_cons, List.map_nil, List.mem_singleton]
            intro e
            exact hnd.1 (e ▸ List.mem_map_of_mem RemoteCol.fieldName hc')

/-- The `get_binding` loop keeps the column dict's keys duplicate-free
(dict semantics: assignment never creates a second entry for a key). -/
theorem get_binding_aux_nodup (geo : Bool) :
    ∀ (cols : List RemoteCol) (acc : List (String × Col)),
      (keys acc).Nodup → (keys (get_binding_aux geo cols acc)).Nodup := by
  intro cols
  induction cols with
  | nil => intro acc h; simpa [get_binding_aux] using h
  | cons c rest ih =>
    intro acc h
    by_cases h1 : (isGeoType c.dataTypeName && !geo) = true
    · rw [show get_binding_aux geo (c :: rest) acc = get_binding_aux geo rest acc
        from by simp [get_binding_aux, h1]]
      exact ih acc h
    · by_cases h2 : isComputed c.fieldName = true
      · rw [show get_binding_aux geo (c :: rest) acc = get_binding_aux geo rest acc
          from by simp [get_binding_aux, h1, h2]]
        exact ih acc h
      · cases hcol : get_sql_col c.dataTypeName with
        | ok col =>
          rw [show get_binding_aux geo (c :: rest) acc =
            get_binding_aux geo rest (dictInsert acc c.fieldName col) from by
              simp [get_binding_aux, h1, h2, hcol]]
          exact ih _ (keys_dictInsert_nodup h)
        | error e =>
          rw [show get_binding_aux geo (c :: rest) acc = get_binding_aux geo rest acc
            from by simp [get_binding_aux, h1, h2, hcol]]
          exact ih acc h

/-- An included column's binding entry carries its own field name. -/
theorem includedCol_name {geo : Bool} {c : RemoteCol} {p : String × Col}
    (h : includedCol geo c = some p) : p.1 = c.fieldName := by
  by_cases h1 : (isGeoType c.dataTypeName && !geo) = true
  · simp [includedCol, h1] at h
  · by_cases h2 : isComputed c.fieldName = true
    · simp [includedCol, h1, h2] at h
    · cases hcol : get_sql_col c.dataTypeName with
      | ok col =>
        simp only [includedCol, h1, h2, hcol, if_false, Bool.false_eq_true,
          Option.some.injEq] at h
        rw [← h]
      | error e => simp [includedCol, h1, h2, hcol] at h

/-- With distinct remote field names, none of them `_pk_`, the Binding the
code builds is exactly the spec's: primary key first, then the surviving
columns in remote order. -/
theorem get_binding_eq_spec (cols : List RemoteCol) (geo : Bool)
    (h1 : (cols.map RemoteCol.fieldName).Nodup)
    (h2 : "_pk_" ∉ cols.map RemoteCol.fieldName) :
    get_binding cols geo = get_binding_spec cols geo := by
  unfold get_binding get_binding_spec
  rw [get_binding_aux_append geo cols [("_pk_", pkCol)] ?_ h1]
  · simp
  · intro c hc
    simp only [keys, List.map_cons, List.map_nil, List.mem_singleton]
    intro e
    exact h2 (e ▸ List.mem_map_of_mem RemoteCol.fieldName hc)

/-- A remote column every inclusion rule rejects contributes no Binding
entry (under distinct field names, none `_pk_`). -/
theorem skipped_not_mem (cols : List RemoteCol) (geo : Bool)
    (h1 : (cols.map RemoteCol.fieldName).Nodup)
    (h2 : "_pk_" ∉ cols.map RemoteCol.fieldName) :
    ∀ c ∈ cols, includedCol geo c = none →
      c.fieldName ∉ keys (get_binding cols geo) := by
  intro c hc hskip hmem
  rw [get_binding_eq_spec cols geo h1 h2] at hmem
  simp only [get_binding_spec, keys, List.map_cons, List.mem_cons] at hmem
  rcases hmem with e | hmem
  · exact h2 (e ▸ List.mem_map_of_mem RemoteCol.fieldName hc)
  · obtain ⟨p, hp, hpe⟩ := List.mem_map.1 hmem
    obtain ⟨c', hc', hinc⟩ := List.mem_filterMap.1 hp
    have hname : c'.fieldName = c.fieldName := by
      rw [← includedCol_name hinc, hpe]
    have hcc : c' = c := List.inj_on_of_nodup_map h1 hc' hc hname
    rw [hcc, hskip] at hinc
    exact Option.noConfusion hinc

/-- A column rejected by the geometry-support or computed-column rule is
not an included column. -/
theorem includedCol_none_of_skip {geo : Bool} {c : RemoteCol}
    (h : (isGeoType c.dataTypeName && !geo) = true ∨ isComputed c.fieldName = true) :
    includedCol geo c = none := by
  rcases h with h | h
  · simp [includedCol, h]
  · by_cases h1 : (isGeoType c.dataTypeName && !geo) = true
    · simp [includedCol, h1]
    · simp [includedCol, h1, h]

/-- C4 counterexample: `record_fields` is a dict, so a later remote column
with a repeated field name overwrites the earlier entry in place instead
of appending; both columns resolve through the type mapper, yet the
Binding does not match the remote column order one-to-one (the claim's
spec-shaped Binding has three entries, the code's has two). -/
theorem c4_counterexample :
    get_binding [⟨"a", "text"⟩, ⟨"a", "number"⟩] true ≠
      get_binding_spec [⟨"a", "text"⟩, ⟨"a", "number"⟩] true ∧
    get_binding [⟨"a", "text"⟩, ⟨"a", "number"⟩] true =
      [("_pk_", pkCol), ("a", ⟨SQLType.numeric, false⟩)] ∧
    (includedCol true ⟨"a", "text"⟩).isSome = true ∧
    (includedCol true ⟨"a", "number"⟩).isSome = true :=
  ⟨by decide, rfl, rfl, rfl⟩

/-- C4 amended: provided the remote field names are pairwise distinct and
none equals the synthetic primary-key name, the Binding is exactly the
synthetic primary key followed by the type-mapper-resolved columns in
remote order, and a column any rule skipped contributes no entry. -/
theorem c4_schema_builder (cols : List RemoteCol) (geo : Bool)
    (h1 : (cols.map RemoteCol.fieldName).Nodup)
    (h2 : "_pk_" ∉ cols.map RemoteCol.fieldName) :
    get_binding cols geo = get_binding_spec cols geo ∧
    (∀ c ∈ cols, includedCol geo c = none →
      c.fieldName ∉ keys (get_binding cols geo)) :=
  ⟨get_binding_eq_spec cols geo h1 h2, skipped_not_mem cols geo h1 h2⟩

/-- Witness for C4 amended: one mapped column, one geometry column without
geometry support, one computed column, one unsupported type. -/
theorem c4_witness :
    get_binding [⟨"name", "text"⟩, ⟨"geom", "point"⟩,
        ⟨":@computed_region_abc", "text"⟩, ⟨"weird", "money"⟩] false =
      get_binding_spec [⟨"name", "text"⟩, ⟨"geom", "point"⟩,
        ⟨":@computed_region_abc", "text"⟩, ⟨"weird", "money"⟩] false :=
  (c4_schema_builder
    [⟨"name", "text"⟩, ⟨"geom", "point"⟩,
     ⟨":@computed_region_abc", "text"⟩, ⟨"weird", "money"⟩] false
    (by decide) (by decide)).1

/-- C8 counterexample: a remote column whose field name is `_pk_`
overwrites the synthetic integer primary-key entry (dict assignment), so
the Binding no longer contains the synthetic integer primary-key column at
all, contradicting "always contains the synthetic integer primary-key
column injected first". -/
theorem c8_counterexample :
    get_binding [⟨"_pk_", "text"⟩] true = [("_pk_", ⟨SQLType.text, false⟩)] ∧
    ("_pk_", pkCol) ∉ get_binding [⟨"_pk_", "text"⟩] true :=
  ⟨rfl, by decide⟩

/-- C8 amended: provided no remote column is named `_pk_` and field names
are distinct, the Binding starts with the synthetic integer primary key,
never holds two entries for one name, and omits every column skipped by
the geometry-support or computed-column rule even though the type mapper
might succeed on it. -/
theorem c8_primary_key (cols : List RemoteCol) (geo : Bool)
    (h1 : (cols.map RemoteCol.fieldName).Nodup)
    (h2 : "_pk_" ∉ cols.map RemoteCol.fieldName) :
    (get_binding cols geo).head? = some ("_pk_", pkCol) ∧
    (keys (get_binding cols geo)).Nodup ∧
    (∀ c ∈ cols,
      (isGeoType c.dataTypeName && !geo) = true ∨ isComputed c.fieldName = true →
      c.fieldName ∉ keys (get_binding cols geo)) := by
  refine ⟨?_, ?_, ?_⟩
  · rw [get_binding_eq_spec cols geo h1 h2]
    rfl
  · exact get_binding_aux_nodup geo cols [("_pk_", pkCol)] (by decide)
  · intro c hc hskip
    exact skipped_not_mem cols geo h1 h2 c hc (includedCol_none_of_skip hskip)

/-- Witness for C8 amended: a location column without geometry support is
skipped and the synthetic primary key leads the Binding. -/
theorem c8_witness :
    (get_binding [⟨"name", "text"⟩, ⟨"geom", "location"⟩] false).head? =
      some ("_pk_", pkCol) ∧
    "geom" ∉ keys (get_binding [⟨"name", "text"⟩, ⟨"geom", "location"⟩] false) := by
  obtain ⟨hh, -, hs⟩ :=
    c8_primary_key [⟨"name", "text"⟩, ⟨"geom", "location"⟩] false
      (by decide) (by decide)
  exact ⟨hh, hs ⟨"geom", "location"⟩ (by decide) (Or.inl (by decide))⟩

/-- A key has a dict-lookup result exactly when it is among the keys. -/
theorem alookup_isSome {α : Type} {l : List (String × α)} {k : String} :
    (alookup l k).isSome = true ↔ k ∈ keys l := by
  induction l with
  | nil => simp [alookup, keys]
  | cons p rest ih =>
    obtain ⟨k', v⟩ := p
    by_cases hp : k' = k
    · simp [alookup, hp, keys]
    · simp only [alookup, if_neg hp, keys, List.map_cons, List.mem_cons]
      rw [show (List.map Prod.fst rest : List String) = keys rest from rfl]
      rw [ih]
      constructor
      · exact Or.inr
      · rintro (e | e)
        · exact absurd e.symm hp
        · exact e

/-- Key-set invariant of the `parse_row` loop: a key ends up in the parsed
dict exactly when it was already accumulated or appears both in the
remaining raw row and in the binding's columns. -/
theorem parse_rowAux_keys (binding : List (String × Col)) :
    ∀ (row : List (String × Value)) (acc parsed : List (String × PyObj)),
      parse_rowAux binding row acc = .ok parsed →
      ∀ k, k ∈ keys parsed ↔ (k ∈ keys acc ∨ (k ∈ keys row ∧ k ∈ keys binding)) := by
  intro row
  induction row with
  | nil =>
    intro acc parsed h k
    simp only [parse_rowAux, Except.ok.injEq] at h
    subst h
    simp [keys]
  | cons p rest ih =>
    obtain ⟨name, v⟩ := p
    intro acc parsed h k
    cases halk : alookup binding name with
    | none =>
      rw [show parse_rowAux binding ((name, v) :: rest) acc =
        parse_rowAux binding rest acc from by simp [parse_rowAux, halk]] at h
      have hnb : name ∉ keys binding := by
        rw [← alookup_isSome]
        simp [halk]
      rw [ih acc parsed h k]
      simp only [keys, List.map_cons, List.mem_cons]
      by_cases hk : k = name
      · subst hk
        tauto
      · tauto
    | some col =>
      cases hco : coerceVal col.type v with
      | error e =>
        rw [show parse_rowAux binding ((name, v) :: rest) acc = .error e from by
          simp [parse_rowAux, halk, hco]] at h
        exact absurd h (by simp)
      | ok pv =>
        rw [show parse_rowAux binding ((name, v) :: rest) acc =
          parse_rowAux binding rest (dictInsert acc name pv) from by
            simp [parse_rowAux, halk, hco]] at h
        have hnb : name ∈ keys binding := alookup_isSome.1 (by simp [halk])
        rw [ih _ parsed h k]
        rw [mem_keys_dictInsert]
        simp only [keys, List.map_cons, List.mem_cons]
        by_cases hk : k = name
        · subst hk
          tauto
        · tauto

/-- C5 counterexample: with a bound column "a" and an empty raw row the
coercer succeeds with an empty typed row, whose key set is not the
Binding's key set minus the synthetic primary key (that set holds "a"). -/
theorem c5_counterexample :
    parse_row [] (get_binding [⟨"a", "text"⟩] false) = Except.ok [] ∧
    "a" ∈ keys (get_binding [⟨"a", "text"⟩] false) ∧
    "a" ≠ "_pk_" ∧
    "a" ∉ keys ([] : List (String × PyObj)) :=
  ⟨rfl, by decide, by decide, by decide⟩

/-- C5 amended: the row coercer drops every raw-row key not in the Binding,
and the typed row's key set is exactly the intersection of the raw row's
keys with the Binding's keys (so a bound column the raw row lacks is also
absent, and `_pk_` appears only when the raw row itself carries it). -/
theorem c5_key_set (row : List (String × Value)) (binding : List (String × Col))
    (parsed : List (String × PyObj)) (h : parse_row row binding = .ok parsed) :
    ∀ k, k ∈ keys parsed ↔ (k ∈ keys row ∧ k ∈ keys binding) := by
  intro k
  have hx := parse_rowAux_keys binding row [] parsed h k
  simpa [keys] using hx

/-- Witness for C5 amended: the unbound raw key "zz" is dropped. -/
theorem c5_witness :
    ("zz" ∈ keys [("a", PyObj.vval (Value.vstr "hi"))]) ↔
      ("zz" ∈ keys [("a", Value.vstr "hi"), ("zz", Value.vnull)] ∧
       "zz" ∈ keys (get_binding [⟨"a", "text"⟩] false)) :=
  c5_key_set [("a", Value.vstr "hi"), ("zz", Value.vnull)]
    (get_binding [⟨"a", "text"⟩] false) [("a", PyObj.vval (Value.vstr "hi"))]
    rfl "zz"

/-- C10: the final success message always states the pre-ingestion
count-query value, whatever the remote pages actually contained; at a
count-query answer of 7 over a 2-row remote dataset the run stages 2 rows
yet reports 7. -/
theorem c10_count_report :
    (∀ (name : String) (num_rows : Nat) (fetch : Nat → List Nat) (ps fuel : Nat),
      (runInsert name num_rows fetch ps fuel).2 = successMessage num_rows name) ∧
    runInsert "Check Register" 7 (fun o => ((List.range 2).drop o).take 5) 5 3 =
      (2, "Successfully imported 7 rows from \"Check Register\".") ∧
    (2 : Nat) ≠ 7 :=
  ⟨fun _ _ _ _ _ => rfl, rfl, by decide⟩

/-- Witness for C10 at a concrete empty remote dataset. -/
theorem c10_witness :
    (runInsert "x" 5 (fun _ => ([] : List Nat)) 5 3).2 = successMessage 5 "x" :=
  c10_count_report.1 "x" 5 (fun _ => []) 5 3
